import Mathlib

/-!
Shallow embedding of the `prometheus-nacos` discovery script
(`src/nacos_discovery.py`): a Nacos registry client, a Prometheus
target-config generator, and the single-cycle orchestration in `main`.

Modelling conventions:
* Parsed JSON values (`response.json()`, instance records, the token) are the
  inductive `Json`.  Bodies are modelled post-parse; a malformed (unparseable)
  HTTP body is outside the model.
* An HTTP call is an `HttpResult`: `exn` is a `requests.RequestException`
  raised by the call itself, `resp statusError body` is a received response,
  where `statusError = true` means `raise_for_status()` raises (the non-2xx
  error statuses).  The registry's behaviour for one cycle is a `Registry`
  record of the three endpoints' results; instance lookups are keyed by the
  textual form of the service name (the value sent as the `serviceName`
  request parameter).
* Python exceptions that the script can raise or catch are `PyError`.
* The filesystem is an explicit `Fs` value (directory set and path-to-content
  map); I/O primitives are assumed to succeed, which is the branch all the
  claims below live in.
* Numbers are `Int` (the integer JSON numbers the claims exercise).
-/

/-- A parsed JSON value as the Python script sees it (`None`, `bool`, `int`,
`str`, `list`, `dict`). -/
inductive Json where
  | null
  | bool (b : Bool)
  | num (n : Int)
  | str (s : String)
  | arr (elems : List Json)
  | obj (fields : List (String × Json))

/-- Python truthiness (`if not x`): `None`, `False`, `0`, `""`, `[]`, `{}` are
falsy. -/
def pyTruthy : Json → Bool
  | .null => false
  | .bool b => b
  | .num n => n != 0
  | .str s => s != ""
  | .arr xs => !xs.isEmpty
  | .obj fs => !fs.isEmpty

/-- Python `repr` of a JSON-shaped value (used by `str` for lists/dicts).
String quoting is approximated without escaping; none of the verified claims
evaluate it on container or string values. -/
def pyRepr : Json → String
  | .null => "None"
  | .bool b => if b then "True" else "False"
  | .num n => toString n
  | .str s => "\x27" ++ s ++ "\x27"
  | .arr xs => "[" ++ String.intercalate ", " (xs.attach.map (fun x => pyRepr x.1)) ++ "]"
  | .obj fs =>
      "\x7b" ++
        String.intercalate ", "
          (fs.attach.map (fun p => "\x27" ++ p.1.1 ++ "\x27: " ++ pyRepr p.1.2)) ++
      "\x7d"
decreasing_by
  · have := List.sizeOf_lt_of_mem x.2
    simp at *
    omega
  · obtain ⟨⟨k, v⟩, hm⟩ := p
    have := List.sizeOf_lt_of_mem hm
    simp at *
    omega

/-- Python `str()` as used by the f-strings (`f"{instance['ip']}"`) and by
request-parameter stringification: identity on strings, decimal on ints,
`True`/`False`/`None`, `repr` on containers. -/
def pyStr : Json → String
  | .str s => s
  | .num n => toString n
  | .bool b => if b then "True" else "False"
  | .null => "None"
  | .arr xs => pyRepr (.arr xs)
  | .obj fs => pyRepr (.obj fs)

/-- `dict.get(k)` on the field list of a JSON object: the first binding of
`k`, if any. -/
def lookupField (fields : List (String × Json)) (k : String) : Option Json :=
  (fields.find? (fun p => p.1 == k)).map Prod.snd

/-- Python errors the script can raise or catch: `RequestException` (also
covering the `HTTPError` from `raise_for_status`), `ValueError`, `TypeError`,
`AttributeError`, `KeyError(k)`. -/
inductive PyError where
  | requestError
  | valueError
  | typeError
  | attributeError
  | keyError (k : String)
deriving DecidableEq

/-- Python subscription `value[k]` with a string key: a `dict` yields the
field or `KeyError`; any non-dict value yields `TypeError`. -/
def pySubscript (j : Json) (k : String) : Except PyError Json :=
  match j with
  | .obj fields =>
      match lookupField fields k with
      | some v => Except.ok v
      | none => Except.error (.keyError k)
  | _ => Except.error .typeError

/-- Python iteration (`for x in v`): lists yield elements, strings yield
one-character strings, dicts yield their keys; other values raise
`TypeError`.  The same values support `len`, so `len(v)` succeeds exactly
when this is `some`. -/
def pyIterList : Json → Option (List Json)
  | .arr xs => some xs
  | .str s => some (s.toList.map (fun c => Json.str (String.singleton c)))
  | .obj fs => some (fs.map (fun p => Json.str p.1))
  | _ => none

/-- `n` space characters. -/
def spacesN (n : Nat) : String := String.mk (List.replicate n (Char.ofNat 32))

/-- One lowercase hex digit. -/
def hexDigit (n : Nat) : Char :=
  if n < 10 then Char.ofNat (48 + n) else Char.ofNat (87 + n)

/-- Four-digit lowercase hex, as in Python's `\uXXXX` escapes. -/
def hex4 (n : Nat) : String :=
  String.mk [hexDigit (n / 4096 % 16), hexDigit (n / 256 % 16),
             hexDigit (n / 16 % 16), hexDigit (n % 16)]

/-- Escaping of one character in a JSON string literal, following Python's
`json` encoder with its default `ensure_ascii=True`. -/
def jsonEscapeChar (c : Char) : String :=
  if c = Char.ofNat 34 then "\\\""
  else if c = Char.ofNat 92 then "\\\\"
  else if c = Char.ofNat 8 then "\\b"
  else if c = Char.ofNat 9 then "\\t"
  else if c = Char.ofNat 10 then "\\n"
  else if c = Char.ofNat 12 then "\\f"
  else if c = Char.ofNat 13 then "\\r"
  else if c.toNat < 32 then "\\u" ++ hex4 c.toNat
  else if c.toNat < 128 then String.singleton c
  else if c.toNat < 65536 then "\\u" ++ hex4 c.toNat
  else
    "\\u" ++ hex4 (55296 + (c.toNat - 65536) / 1024) ++
    "\\u" ++ hex4 (56320 + (c.toNat - 65536) % 1024)

/-- A JSON string literal, Python-style. -/
def jsonQuote (s : String) : String :=
  "\"" ++ String.join (s.toList.map jsonEscapeChar) ++ "\""

mutual

/-- `json.dumps(v, indent=2)` at nesting depth `d`: Python's pretty-printer
with two-space indentation, `,` item separator, `: ` key separator, and
compact `[]`/`{}` for empty containers. -/
def jsonDump (d : Nat) : Json → String
  | .null => "null"
  | .bool b => if b then "true" else "false"
  | .num n => toString n
  | .str s => jsonQuote s
  | .arr xs =>
      match xs with
      | [] => "[]"
      | _ =>
          "[\n" ++ String.intercalate ",\n" (jsonDumpItems (d + 1) xs) ++
          "\n" ++ spacesN (2 * d) ++ "]"
  | .obj fs =>
      match fs with
      | [] => "\x7b\x7d"
      | _ =>
          "\x7b\n" ++ String.intercalate ",\n" (jsonDumpFields (d + 1) fs) ++
          "\n" ++ spacesN (2 * d) ++ "\x7d"

/-- The pretty-printed array items at depth `d`, each on its own indented
line. -/
def jsonDumpItems (d : Nat) : List Json → List String
  | [] => []
  | x :: xs => (spacesN (2 * d) ++ jsonDump d x) :: jsonDumpItems d xs

/-- The pretty-printed object entries at depth `d`. -/
def jsonDumpFields (d : Nat) : List (String × Json) → List String
  | [] => []
  | (k, v) :: fs =>
      (spacesN (2 * d) ++ jsonQuote k ++ ": " ++ jsonDump d v) :: jsonDumpFields d fs

end

/-- The serialized target document: `json.dump(targets, f, indent=2)` in
`save_config` writes exactly this string for the Python list `targets`. -/
def dumpsTargets (targets : List Json) : String := jsonDump 0 (Json.arr targets)

/-- The outcome of one HTTP call: `exn` models a `RequestException` raised by
the call itself; `resp statusError body` a received response with parsed JSON
`body`, where `statusError = true` means `raise_for_status()` raises an
`HTTPError` (the non-2xx error statuses). -/
inductive HttpResult where
  | exn
  | resp (statusError : Bool) (body : Json)

/-- The registry's behaviour for one cycle: the results of the login call,
the service-list call, and the instance-list call for each `serviceName`
request parameter (the textual form of the service name). -/
structure Registry where
  login : HttpResult
  serviceList : HttpResult
  instanceList : String → HttpResult

/-- The process environment seen by `os.getenv` (a missing variable is
`none`). -/
structure Env where
  NACOS_SERVER : Option String
  NACOS_NAMESPACE : Option String
  NACOS_USERNAME : Option String
  NACOS_PASSWORD : Option String
  GROUP_NAME : Option String

/-- `NacosConfig`: the configuration object.  `namespaceId` models the
source's `self.namespace` field (renamed to avoid the Lean keyword).  The
`token` starts as the empty string and is reassigned by `authenticate` with
whatever `.get("accessToken")` returned, so it holds a `Json` value. -/
structure NacosConfig where
  server : String
  namespaceId : String
  username : String
  password : String
  group_name : String
  token : Json

/-- `NacosConfig.__init__`: read the five environment variables with their
defaults and set the token to the empty string. -/
def NacosConfig.mkInit (env : Env) : NacosConfig where
  server := env.NACOS_SERVER.getD "http://127.0.0.1:8848"
  namespaceId := env.NACOS_NAMESPACE.getD "dev"
  username := env.NACOS_USERNAME.getD "nacos"
  password := env.NACOS_PASSWORD.getD "nacos"
  group_name := env.GROUP_NAME.getD "DEFAULT_GROUP"
  token := Json.str ""

/-- `NacosClient.authenticate`: POST the login form; `raise_for_status`; then
assign `self.config.token = response.json().get("accessToken")` and raise
`ValueError` if the assigned token is falsy.  Returns the configuration after
the call together with the error raised, if any.  Note the assignment happens
before the truthiness check, so a reachable `ValueError` leaves the fetched
falsy value (or `null` for a missing field) in the token.  A non-dict body
makes `.get` raise `AttributeError`, which `except RequestException` does not
catch. -/
def authenticate (cfg : NacosConfig) (reg : Registry) : NacosConfig × Option PyError :=
  match reg.login with
  | .exn => (cfg, some .requestError)
  | .resp true _ => (cfg, some .requestError)
  | .resp false body =>
      match body with
      | .obj fields =>
          let tok := (lookupField fields "accessToken").getD Json.null
          let cfg := { cfg with token := tok }
          if pyTruthy tok then (cfg, none) else (cfg, some .valueError)
      | _ => (cfg, some .attributeError)

/-- `NacosClient.get_services`: GET the service list; on any
`RequestException` (including the `raise_for_status` error) log and return
`[]`; otherwise return `response.json().get('doms', [])`.  The
`len(services)` in the log line raises `TypeError` on an unsized value, and a
non-dict body raises `AttributeError`; neither is caught by
`except RequestException`. -/
def get_services (reg : Registry) : Except PyError Json :=
  match reg.serviceList with
  | .exn => Except.ok (Json.arr [])
  | .resp true _ => Except.ok (Json.arr [])
  | .resp false body =>
      match body with
      | .obj fields =>
          let services := (lookupField fields "doms").getD (Json.arr [])
          match pyIterList services with
          | some _ => Except.ok services
          | none => Except.error .typeError
      | _ => Except.error .attributeError

/-- `NacosClient.get_service_instances`: GET the instance list for one
service; on any `RequestException` log and return `[]`; otherwise return
`response.json().get('hosts', [])`.  Same `len`/non-dict caveats as
`get_services`. -/
def get_service_instances (reg : Registry) (serviceNameKey : String) : Except PyError Json :=
  match reg.instanceList serviceNameKey with
  | .exn => Except.ok (Json.arr [])
  | .resp true _ => Except.ok (Json.arr [])
  | .resp false body =>
      match body with
      | .obj fields =>
          let instances := (lookupField fields "hosts").getD (Json.arr [])
          match pyIterList instances with
          | some _ => Except.ok instances
          | none => Except.error .typeError
      | _ => Except.error .attributeError

/-- The loop body of `generate_target_config` for one instance record: the
target dict built from `instance['ip']` and `instance['port']`, or the
uncaught `KeyError`/`TypeError` the subscripts raise. -/
def mkTarget (service_name : Json) (inst : Json) : Except PyError Json :=
  match pySubscript inst "ip" with
  | Except.error e => Except.error e
  | Except.ok ip =>
      match pySubscript inst "port" with
      | Except.error e => Except.error e
      | Except.ok port =>
          let addr := pyStr ip ++ ":" ++ pyStr port
          Except.ok (Json.obj
            [("targets", Json.arr [Json.str addr]),
             ("labels", Json.obj
               [("instance", Json.str addr),
                ("job", Json.str "nacos-discovery"),
                ("service", service_name)])])

/-- The `for instance in instances` loop of `generate_target_config`,
appending one target per record, left to right, stopping at the first raised
error. -/
def buildTargets (service_name : Json) : List Json → Except PyError (List Json)
  | [] => Except.ok []
  | inst :: rest =>
      match mkTarget service_name inst with
      | Except.error e => Except.error e
      | Except.ok t =>
          match buildTargets service_name rest with
          | Except.error e => Except.error e
          | Except.ok ts => Except.ok (t :: ts)

/-- `PrometheusConfigGenerator.generate_target_config`: iterate the received
`instances` value (a `TypeError` if it is not iterable) and build one target
per record. -/
def generate_target_config (instances : Json) (service_name : Json) :
    Except PyError (List Json) :=
  match pyIterList instances with
  | none => Except.error .typeError
  | some records => buildTargets service_name records

/-- The filesystem: the set of directories known to exist and the files'
contents by path. -/
structure Fs where
  dirs : List String
  files : List (String × String)

/-- Content of the file at `p`, if present. -/
def Fs.read? (fs : Fs) (p : String) : Option String :=
  (fs.files.find? (fun e => e.1 == p)).map Prod.snd

/-- `os.makedirs(d, exist_ok=True)`. -/
def Fs.mkdirs (fs : Fs) (d : String) : Fs :=
  if fs.dirs.contains d then fs else { fs with dirs := fs.dirs ++ [d] }

/-- `open(p, 'w')` followed by a full write of `c`: any previous content at
`p` is replaced. -/
def Fs.write (fs : Fs) (p c : String) : Fs :=
  { fs with files := fs.files.filter (fun e => e.1 != p) ++ [(p, c)] }

/-- `shutil.copy(src, dst)`: overwrite `dst` with the content of `src` (in
`save_config` the source file was just written, so it is always present; the
missing-source branch is unreachable there). -/
def Fs.copy (fs : Fs) (src dst : String) : Fs :=
  match fs.read? src with
  | some c => fs.write dst c
  | none => fs

/-- `os.path.basename`: the part after the last slash (the whole string when
there is no slash, empty for a trailing slash). -/
def basename (p : String) : String :=
  String.mk (((p.toList.reverse).takeWhile (fun c => c ≠ Char.ofNat 47)).reverse)

/-- `s` starts with `pre` (character-list formulation, used instead of
`String.startsWith` so that concrete paths evaluate in the kernel). -/
def strStartsWith (s pre : String) : Bool := pre.toList.isPrefixOf s.toList

/-- `s` ends with `suf` (character-list formulation). -/
def strEndsWith (s suf : String) : Bool :=
  suf.toList.reverse.isPrefixOf s.toList.reverse

/-- `os.path.join` for the shapes used here: an absolute second part wins,
otherwise the parts are joined with a single slash. -/
def pathJoin (a b : String) : String :=
  if strStartsWith b "/" then b
  else if strEndsWith a "/" || a == "" then a ++ b
  else a ++ "/" ++ b

/-- `PrometheusConfigGenerator.save_config`: ensure `config_dir` exists,
write the document serialized with `indent=2` to `output_path`, then copy
that file to `config_dir/basename(output_path)`. -/
def save_config (targets : List Json) (output_path config_dir : String) (fs : Fs) : Fs :=
  let fs := fs.mkdirs config_dir
  let fs := fs.write output_path (dumpsTargets targets)
  let dest_path := pathJoin config_dir (basename output_path)
  fs.copy output_path dest_path

/-- One iteration of the service loop in `main`: fetch the instances of one
service and build its targets. -/
def perService (reg : Registry) (service_name : Json) : Except PyError (List Json) :=
  match get_service_instances reg (pyStr service_name) with
  | Except.error e => Except.error e
  | Except.ok instances => generate_target_config instances service_name

/-- The service loop of `main`: extend `all_targets` with each service's
targets, in listing order, stopping at the first uncaught error. -/
def collectAll (reg : Registry) : List Json → Except PyError (List Json)
  | [] => Except.ok []
  | s :: rest =>
      match perService reg s with
      | Except.error e => Except.error e
      | Except.ok ts =>
          match collectAll reg rest with
          | Except.error e => Except.error e
          | Except.ok more => Except.ok (ts ++ more)

/-- The working-file path hardcoded in `main`. -/
def workingPath : String := "./app/services.json"

/-- The watched Prometheus configuration directory hardcoded in `main`. -/
def configDir : String := "./prometheus/conf"

/-- The path of the copy placed in the watched directory. -/
def destPath : String := pathJoin configDir (basename workingPath)

/-- `main` (one discovery cycle): build the config from the environment,
authenticate, list services, collect every service's targets, and save.  The
resulting filesystem is returned with the error the cycle re-raises, if any;
an aborted cycle leaves the filesystem untouched. -/
def runMain (env : Env) (reg : Registry) (fs : Fs) : Fs × Except PyError Unit :=
  let cfg := NacosConfig.mkInit env
  match (authenticate cfg reg).2 with
  | some e => (fs, Except.error e)
  | none =>
      match get_services reg with
      | Except.error e => (fs, Except.error e)
      | Except.ok services =>
          match pyIterList services with
          | none => (fs, Except.error .typeError)
          | some names =>
              match collectAll reg names with
              | Except.error e => (fs, Except.error e)
              | Except.ok all_targets =>
                  (save_config all_targets workingPath configDir fs, Except.ok ())

/-- An instance record carries field `k`: subscription succeeds. -/
def hasField (i : Json) (k : String) : Prop :=
  ∃ v, pySubscript i k = Except.ok v

theorem find?_filter_ne_none (l : List (String × String)) (p : String) :
    (l.filter (fun e => e.1 != p)).find? (fun e => e.1 == p) = none := by
  induction l with
  | nil => rfl
  | cons a l ih =>
      by_cases h : a.1 = p
      · simp [List.filter_cons, h, ih]
      · simp [List.filter_cons, h, List.find?_cons, ih]

theorem find?_filter_other (l : List (String × String)) (p q : String) (h : p ≠ q) :
    (l.filter (fun e => e.1 != p)).find? (fun e => e.1 == q) =
      l.find? (fun e => e.1 == q) := by
  induction l with
  | nil => rfl
  | cons a l ih =>
      by_cases hq : a.1 = q
      · have hp : ¬ a.1 = p := by rw [hq]; exact fun hh => h hh.symm
        simp [List.filter_cons, hp, List.find?_cons, hq, Ne.symm h]
      · by_cases hp : a.1 = p
        · simp [List.filter_cons, hp, List.find?_cons, hq, ih,
                show (p == q) = false by simpa using h]
        · simp [List.filter_cons, hp, List.find?_cons, hq, ih]

theorem Fs.read?_write_self (fs : Fs) (p c : String) :
    (fs.write p c).read? p = some c := by
  unfold Fs.write Fs.read?
  simp [List.find?_append, find?_filter_ne_none, List.find?_cons]

theorem Fs.read?_write_ne (fs : Fs) (p q c : String) (h : p ≠ q) :
    (fs.write p c).read? q = fs.read? q := by
  unfold Fs.write Fs.read?
  simp [List.find?_append, find?_filter_other fs.files p q h, List.find?_cons,
        show (p == q) = false by simpa using h]

theorem Fs.read?_mkdirs (fs : Fs) (d p : String) :
    (fs.mkdirs d).read? p = fs.read? p := by
  unfold Fs.mkdirs Fs.read?
  split <;> rfl

theorem destPath_eq : destPath = "./prometheus/conf/services.json" := by decide

theorem save_config_read_working (T : List Json) (fs : Fs) :
    (save_config T workingPath configDir fs).read? workingPath = some (dumpsTargets T) := by
  simp only [save_config, Fs.copy, Fs.read?_write_self]
  rw [Fs.read?_write_ne _ _ _ _
        (by decide : pathJoin configDir (basename workingPath) ≠ workingPath)]
  exact Fs.read?_write_self _ _ _

theorem save_config_read_dest (T : List Json) (fs : Fs) :
    (save_config T workingPath configDir fs).read? destPath = some (dumpsTargets T) := by
  simp only [save_config, Fs.copy, Fs.read?_write_self, destPath]

theorem mkTarget_eq_of_fields (s i a b : Json)
    (ha : pySubscript i "ip" = Except.ok a)
    (hb : pySubscript i "port" = Except.ok b) :
    mkTarget s i = Except.ok (Json.obj
      [("targets", Json.arr [Json.str (pyStr a ++ ":" ++ pyStr b)]),
       ("labels", Json.obj
         [("instance", Json.str (pyStr a ++ ":" ++ pyStr b)),
          ("job", Json.str "nacos-discovery"),
          ("service", s)])]) := by
  simp only [mkTarget]
  rw [ha, hb]

theorem buildTargets_cons_ok (s i t : Json) (l ts : List Json)
    (h1 : mkTarget s i = Except.ok t) (h2 : buildTargets s l = Except.ok ts) :
    buildTargets s (i :: l) = Except.ok (t :: ts) := by
  simp only [buildTargets]
  rw [h1, h2]

theorem buildTargets_ok_len (s : Json) (l : List Json)
    (h : ∀ i ∈ l, hasField i "ip" ∧ hasField i "port") :
    ∃ ts, buildTargets s l = Except.ok ts ∧ ts.length = l.length := by
  induction l with
  | nil => exact ⟨[], rfl, rfl⟩
  | cons i l ih =>
      obtain ⟨⟨a, ha⟩, ⟨b, hb⟩⟩ := h i (by simp)
      obtain ⟨ts, hts, hlen⟩ := ih (fun j hj => h j (by simp [hj]))
      refine ⟨_ :: ts, buildTargets_cons_ok s i _ l ts (mkTarget_eq_of_fields s i a b ha hb) hts, ?_⟩
      simp [hlen]

theorem buildTargets_error_mid (s bad : Json) (pre post : List Json) (e : PyError)
    (hpre : ∀ i ∈ pre, hasField i "ip" ∧ hasField i "port")
    (hbad : mkTarget s bad = Except.error e) :
    buildTargets s (pre ++ bad :: post) = Except.error e := by
  induction pre with
  | nil =>
      simp only [List.nil_append, buildTargets]
      rw [hbad]
  | cons i pre ih =>
      obtain ⟨⟨a, ha⟩, ⟨b, hb⟩⟩ := hpre i (by simp)
      have hrest := ih (fun j hj => hpre j (by simp [hj]))
      simp only [List.cons_append, buildTargets, List.append_eq]
      rw [mkTarget_eq_of_fields s i a b ha hb, hrest]

theorem mkTarget_missing_field (s : Json) (fields : List (String × Json))
    (h : lookupField fields "ip" = none ∨ lookupField fields "port" = none) :
    ∃ k, (k = "ip" ∨ k = "port") ∧
      mkTarget s (Json.obj fields) = Except.error (PyError.keyError k) := by
  cases hip : lookupField fields "ip" with
  | none =>
      refine ⟨"ip", Or.inl rfl, ?_⟩
      simp only [mkTarget, pySubscript]
      rw [hip]
  | some v =>
      have hport : lookupField fields "port" = none := by
        cases h with
        | inl h1 => rw [h1] at hip; exact absurd hip (by simp)
        | inr h2 => exact h2
      refine ⟨"port", Or.inr rfl, ?_⟩
      simp only [mkTarget, pySubscript]
      rw [hip, hport]

theorem collectAll_cons_ok (reg : Registry) (s : Json) (l : List Json)
    (ts more : List Json)
    (h1 : perService reg s = Except.ok ts)
    (h2 : collectAll reg l = Except.ok more) :
    collectAll reg (s :: l) = Except.ok (ts ++ more) := by
  simp only [collectAll]
  rw [h1, h2]

theorem collectAll_ok_of_all (reg : Registry) (l : List Json) (tgt : Json → List Json)
    (h : ∀ n ∈ l, perService reg n = Except.ok (tgt n)) :
    collectAll reg l = Except.ok (l.map tgt).flatten := by
  induction l with
  | nil => rfl
  | cons s l ih =>
      have hrest := ih (fun n hn => h n (by simp [hn]))
      simp only [List.map_cons, List.flatten_cons]
      exact collectAll_cons_ok reg s l _ _ (h s (by simp)) hrest

theorem collectAll_error_mid (reg : Registry) (pre post : List Json) (bad : Json)
    (e : PyError)
    (hpre : ∀ n ∈ pre, ∃ ts, perService reg n = Except.ok ts)
    (hbad : perService reg bad = Except.error e) :
    collectAll reg (pre ++ bad :: post) = Except.error e := by
  induction pre with
  | nil =>
      simp only [List.nil_append, collectAll]
      rw [hbad]
  | cons s pre ih =>
      obtain ⟨ts, hts⟩ := hpre s (by simp)
      have hrest := ih (fun n hn => hpre n (by simp [hn]))
      simp only [List.cons_append, collectAll, List.append_eq]
      rw [hts, hrest]

theorem get_service_instances_of_fail (reg : Registry) (key : String)
    (h : reg.instanceList key = HttpResult.exn ∨
         ∃ b, reg.instanceList key = HttpResult.resp true b) :
    get_service_instances reg key = Except.ok (Json.arr []) := by
  cases h with
  | inl h1 => simp [get_service_instances, h1]
  | inr h2 => obtain ⟨b, h2⟩ := h2; simp [get_service_instances, h2]

theorem perService_of_fail (reg : Registry) (name : Json)
    (h : reg.instanceList (pyStr name) = HttpResult.exn ∨
         ∃ b, reg.instanceList (pyStr name) = HttpResult.resp true b) :
    perService reg name = Except.ok [] := by
  simp only [perService]
  rw [get_service_instances_of_fail reg (pyStr name) h]
  rfl

theorem runMain_eq_of_ok (env : Env) (reg : Registry) (fs : Fs) (names T : List Json)
    (hauth : (authenticate (NacosConfig.mkInit env) reg).2 = none)
    (hsvc : get_services reg = Except.ok (Json.arr names))
    (hcoll : collectAll reg names = Except.ok T) :
    runMain env reg fs = (save_config T workingPath configDir fs, Except.ok ()) := by
  simp only [runMain]
  rw [hauth, hsvc]
  simp only [pyIterList]
  rw [hcoll]

theorem runMain_eq_of_collect_error (env : Env) (reg : Registry) (fs : Fs)
    (names : List Json) (e : PyError)
    (hauth : (authenticate (NacosConfig.mkInit env) reg).2 = none)
    (hsvc : get_services reg = Except.ok (Json.arr names))
    (hcoll : collectAll reg names = Except.error e) :
    runMain env reg fs = (fs, Except.error e) := by
  simp only [runMain]
  rw [hauth, hsvc]
  simp only [pyIterList]
  rw [hcoll]

/-- A process environment with no variables set (all defaults apply). -/
def envW : Env := ⟨none, none, none, none, none⟩

/-- An empty filesystem. -/
def fsW : Fs := ⟨[], []⟩

/-- A well-formed instance record. -/
def instW : Json := Json.obj [("ip", Json.str "10.0.0.5"), ("port", Json.num 8080)]

/-- A registry where the login call itself raises. -/
def regAuthFail : Registry := ⟨HttpResult.exn, HttpResult.exn, fun _ => HttpResult.exn⟩

/-- A registry whose login response parses but has no `accessToken` field. -/
def regAuthNoToken : Registry :=
  ⟨HttpResult.resp false (Json.obj []), HttpResult.exn, fun _ => HttpResult.exn⟩

/-- Claim C2: for every service name and every instance list in which each
record has `ip` and `port` fields, `generate_target_config` returns a list
whose length equals the instance list's length — one target per instance,
with no filtering and no deduplication. -/
theorem c2_one_target_per_instance (service_name : Json) (l : List Json)
    (h : ∀ i ∈ l, hasField i "ip" ∧ hasField i "port") :
    ∃ ts, generate_target_config (Json.arr l) service_name = Except.ok ts ∧
      ts.length = l.length := by
  obtain ⟨ts, hts, hlen⟩ := buildTargets_ok_len service_name l h
  refine ⟨ts, ?_, hlen⟩
  simp only [generate_target_config, pyIterList]
  exact hts

theorem c2_witness :
    (∀ i ∈ [instW, instW], hasField i "ip" ∧ hasField i "port") ∧
    ∃ ts, generate_target_config (Json.arr [instW, instW]) (Json.str "svc-a") = Except.ok ts ∧
      ts.length = 2 := by
  have hf : ∀ i ∈ [instW, instW], hasField i "ip" ∧ hasField i "port" := by
    intro i hi
    have hii : i = instW := by
      rcases List.mem_cons.mp hi with h | h2
      · exact h
      · simpa using h2
    subst hii
    exact ⟨⟨Json.str "10.0.0.5", rfl⟩, ⟨Json.num 8080, rfl⟩⟩
  exact ⟨hf, c2_one_target_per_instance (Json.str "svc-a") [instW, instW] hf⟩

/-- Claim C4: whenever `authenticate` raises — for any of its failure causes —
the cycle aborts with that error before any filesystem operation: the
filesystem is returned unchanged, so the working file is neither created nor
modified, no copy is placed in the watched directory, and the watched
directory is not created. -/
theorem c4_auth_failure_leaves_fs (env : Env) (reg : Registry) (fs : Fs) (e : PyError)
    (h : (authenticate (NacosConfig.mkInit env) reg).2 = some e) :
    runMain env reg fs = (fs, Except.error e) := by
  simp only [runMain]
  rw [h]

theorem c4_witness :
    (authenticate (NacosConfig.mkInit envW) regAuthFail).2 = some PyError.requestError ∧
    runMain envW regAuthFail fsW = (fsW, Except.error PyError.requestError) :=
  ⟨rfl, c4_auth_failure_leaves_fs envW regAuthFail fsW PyError.requestError rfl⟩

/-- Claim C6, counterexample: a failing `authenticate` does not always leave
the token at its empty initial value.  With a parsed login response that
lacks `accessToken`, `authenticate` raises `ValueError`, but only after
overwriting the token (initially the empty string) with `None`. -/
theorem c6_counterexample :
    (authenticate (NacosConfig.mkInit envW) regAuthNoToken).2 = some PyError.valueError ∧
    (NacosConfig.mkInit envW).token = Json.str "" ∧
    (authenticate (NacosConfig.mkInit envW) regAuthNoToken).1.token = Json.null ∧
    Json.null ≠ Json.str "" := by
  refine ⟨rfl, rfl, rfl, ?_⟩
  intro h
  exact Json.noConfusion h

/-- Claim C6, amended: after a failing `authenticate` the token is falsy but
not necessarily unchanged: on a transport/HTTP-status failure (or a non-dict
body) the token keeps its previous value, while on a parsed dict body the
token is first overwritten with the retrieved `accessToken` value (`None`
when the field is missing), which the raise then leaves in place as a falsy
value. -/
theorem c6_amended_failed_auth_token (cfg : NacosConfig) (reg : Registry) (e : PyError)
    (h : (authenticate cfg reg).2 = some e) :
    ((reg.login = HttpResult.exn ∨ ∃ b, reg.login = HttpResult.resp true b) →
        (authenticate cfg reg).1.token = cfg.token) ∧
    (∀ fields, reg.login = HttpResult.resp false (Json.obj fields) →
        (authenticate cfg reg).1.token = (lookupField fields "accessToken").getD Json.null ∧
        pyTruthy ((lookupField fields "accessToken").getD Json.null) = false) ∧
    (∀ b, reg.login = HttpResult.resp false b → (∀ fields, b ≠ Json.obj fields) →
        (authenticate cfg reg).1.token = cfg.token) := by
  refine ⟨?_, ?_, ?_⟩
  · rintro (h1 | ⟨b, h1⟩) <;> simp [authenticate, h1]
  · intro fields h1
    cases htr : pyTruthy ((lookupField fields "accessToken").getD Json.null) with
    | false => constructor <;> simp [authenticate, h1, htr]
    | true => simp [authenticate, h1, htr] at h
  · intro b h1 h2
    cases b with
    | obj fields => exact absurd rfl (h2 fields)
    | null => simp [authenticate, h1]
    | bool x => simp [authenticate, h1]
    | num x => simp [authenticate, h1]
    | str x => simp [authenticate, h1]
    | arr x => simp [authenticate, h1]

theorem c6_amended_witness :
    (authenticate (NacosConfig.mkInit envW) regAuthNoToken).2 = some PyError.valueError ∧
    (authenticate (NacosConfig.mkInit envW) regAuthNoToken).1.token =
      (lookupField [] "accessToken").getD Json.null := by
  refine ⟨rfl, ?_⟩
  have h := c6_amended_failed_auth_token (NacosConfig.mkInit envW) regAuthNoToken
    PyError.valueError rfl
  exact (h.2.1 [] rfl).1

/-- Claim C9: a 2xx enumeration response whose parsed body is a dict lacking
the expected array field (`doms` for the service list, `hosts` for the
instance list) does not raise: the operation returns the empty list, exactly
the value returned for a transport error or an HTTP-status error — a
success-shaped but field-less body is indistinguishable from zero results. -/
theorem c9_missing_field_is_empty (reg : Registry) (fieldsS fieldsI : List (String × Json))
    (key : String) :
    (reg.serviceList = HttpResult.resp false (Json.obj fieldsS) →
        lookupField fieldsS "doms" = none →
        get_services reg = Except.ok (Json.arr [])) ∧
    (reg.serviceList = HttpResult.exn → get_services reg = Except.ok (Json.arr [])) ∧
    (∀ b, reg.serviceList = HttpResult.resp true b →
        get_services reg = Except.ok (Json.arr [])) ∧
    (reg.instanceList key = HttpResult.resp false (Json.obj fieldsI) →
        lookupField fieldsI "hosts" = none →
        get_service_instances reg key = Except.ok (Json.arr [])) ∧
    (reg.instanceList key = HttpResult.exn →
        get_service_instances reg key = Except.ok (Json.arr [])) ∧
    (∀ b, reg.instanceList key = HttpResult.resp true b →
        get_service_instances reg key = Except.ok (Json.arr [])) := by
  refine ⟨?_, ?_, ?_, ?_, ?_, ?_⟩
  · intro h1 h2
    simp [get_services, h1, h2, pyIterList]
  · intro h1
    simp [get_services, h1]
  · intro b h1
    simp [get_services, h1]
  · intro h1 h2
    simp [get_service_instances, h1, h2, pyIterList]
  · intro h1
    simp [get_service_instances, h1]
  · intro b h1
    simp [get_service_instances, h1]

/-- A registry whose service-list response is a dict without `doms` and whose
instance-list calls raise. -/
def regFieldless : Registry :=
  ⟨HttpResult.resp false (Json.obj [("accessToken", Json.str "t")]),
   HttpResult.resp false (Json.obj [("count", Json.num 0)]),
   fun _ => HttpResult.exn⟩

theorem c9_witness :
    regFieldless.serviceList = HttpResult.resp false (Json.obj [("count", Json.num 0)]) ∧
    lookupField [("count", Json.num 0)] "doms" = none ∧
    get_services regFieldless = Except.ok (Json.arr []) ∧
    get_service_instances regFieldless "svc-a" = Except.ok (Json.arr []) := by
  refine ⟨rfl, rfl, ?_, ?_⟩
  · exact (c9_missing_field_is_empty regFieldless [("count", Json.num 0)] [] "svc-a").1 rfl rfl
  · exact (c9_missing_field_is_empty regFieldless [("count", Json.num 0)] [] "svc-a").2.2.2.2.1 rfl

/-- Claim C10: `authenticate` succeeds exactly when the login call yields a
response that passes `raise_for_status` and whose parsed dict body carries an
`accessToken` whose value is truthy — a present but empty (or otherwise
falsy) token value makes `authenticate` raise just like a missing field. -/
theorem c10_authenticate_success_iff (cfg : NacosConfig) (reg : Registry) :
    (authenticate cfg reg).2 = none ↔
      ∃ fields tok, reg.login = HttpResult.resp false (Json.obj fields) ∧
        lookupField fields "accessToken" = some tok ∧ pyTruthy tok = true := by
  cases hl : reg.login with
  | exn => simp [authenticate, hl]
  | resp st body =>
      cases st with
      | true => simp [authenticate, hl]
      | false =>
          cases body with
          | obj fields =>
              cases ht : lookupField fields "accessToken" with
              | none => simp [authenticate, hl, ht, pyTruthy]
              | some tok =>
                  cases htr : pyTruthy tok with
                  | false => simp [authenticate, hl, ht, htr]
                  | true => simp [authenticate, hl, ht, htr]
          | null => simp [authenticate, hl]
          | bool x => simp [authenticate, hl]
          | num x => simp [authenticate, hl]
          | str x => simp [authenticate, hl]
          | arr x => simp [authenticate, hl]

theorem collectAll_append_ok (reg : Registry) (l1 l2 T1 T2 : List Json)
    (h1 : collectAll reg l1 = Except.ok T1)
    (h2 : collectAll reg l2 = Except.ok T2) :
    collectAll reg (l1 ++ l2) = Except.ok (T1 ++ T2) := by
  induction l1 generalizing T1 with
  | nil =>
      simp only [collectAll] at h1
      cases h1
      simpa using h2
  | cons s l1 ih =>
      simp only [collectAll] at h1 ⊢
      cases hps : perService reg s with
      | error e => rw [hps] at h1; cases h1
      | ok ts =>
          rw [hps] at h1
          cases hrest : collectAll reg l1 with
          | error e => rw [hrest] at h1; cases h1
          | ok more =>
              rw [hrest] at h1
              cases h1
              simp [List.append_eq, ih more hrest, List.append_assoc]

/-- Claim C1: with authentication succeeding, service enumeration returning
exactly `["svc-a"]`, and the instance lookup for `svc-a` returning exactly
one record whose `ip` is `"10.0.0.5"` and whose `port` is `8080`, the cycle
produces and writes (to the working file and to the watched-directory copy)
exactly the one-element document
`[{"targets": ["10.0.0.5:8080"], "labels": {"instance": "10.0.0.5:8080",
"job": "nacos-discovery", "service": "svc-a"}}]`. -/
theorem c1_single_service_document (env : Env) (reg : Registry) (fs : Fs) (inst : Json)
    (hauth : (authenticate (NacosConfig.mkInit env) reg).2 = none)
    (hsvc : get_services reg = Except.ok (Json.arr [Json.str "svc-a"]))
    (hinst : get_service_instances reg "svc-a" = Except.ok (Json.arr [inst]))
    (hip : pySubscript inst "ip" = Except.ok (Json.str "10.0.0.5"))
    (hport : pySubscript inst "port" = Except.ok (Json.num 8080)) :
    runMain env reg fs =
      (save_config [Json.obj
          [("targets", Json.arr [Json.str "10.0.0.5:8080"]),
           ("labels", Json.obj
             [("instance", Json.str "10.0.0.5:8080"),
              ("job", Json.str "nacos-discovery"),
              ("service", Json.str "svc-a")])]] workingPath configDir fs,
       Except.ok ()) ∧
    (runMain env reg fs).1.read? workingPath =
      some (dumpsTargets [Json.obj
          [("targets", Json.arr [Json.str "10.0.0.5:8080"]),
           ("labels", Json.obj
             [("instance", Json.str "10.0.0.5:8080"),
              ("job", Json.str "nacos-discovery"),
              ("service", Json.str "svc-a")])]]) ∧
    (runMain env reg fs).1.read? destPath =
      some (dumpsTargets [Json.obj
          [("targets", Json.arr [Json.str "10.0.0.5:8080"]),
           ("labels", Json.obj
             [("instance", Json.str "10.0.0.5:8080"),
              ("job", Json.str "nacos-discovery"),
              ("service", Json.str "svc-a")])]]) := by
  have hmk : mkTarget (Json.str "svc-a") inst = Except.ok (Json.obj
      [("targets", Json.arr [Json.str "10.0.0.5:8080"]),
       ("labels", Json.obj
         [("instance", Json.str "10.0.0.5:8080"),
          ("job", Json.str "nacos-discovery"),
          ("service", Json.str "svc-a")])]) := by
    rw [mkTarget_eq_of_fields (Json.str "svc-a") inst _ _ hip hport]
    rfl
  have hbt := buildTargets_cons_ok (Json.str "svc-a") inst _ [] [] hmk rfl
  have hps : perService reg (Json.str "svc-a") = Except.ok [Json.obj
      [("targets", Json.arr [Json.str "10.0.0.5:8080"]),
       ("labels", Json.obj
         [("instance", Json.str "10.0.0.5:8080"),
          ("job", Json.str "nacos-discovery"),
          ("service", Json.str "svc-a")])]] := by
    simp only [perService]
    rw [show pyStr (Json.str "svc-a") = "svc-a" from rfl, hinst]
    simp only [generate_target_config, pyIterList]
    exact hbt
  have hcoll := collectAll_cons_ok reg (Json.str "svc-a") [] _ [] hps rfl
  have hcoll2 : collectAll reg [Json.str "svc-a"] = Except.ok [Json.obj
      [("targets", Json.arr [Json.str "10.0.0.5:8080"]),
       ("labels", Json.obj
         [("instance", Json.str "10.0.0.5:8080"),
          ("job", Json.str "nacos-discovery"),
          ("service", Json.str "svc-a")])]] := by
    simpa using hcoll
  have hrun := runMain_eq_of_ok env reg fs [Json.str "svc-a"] _ hauth hsvc hcoll2
  refine ⟨hrun, ?_, ?_⟩
  · rw [hrun]
    exact save_config_read_working _ fs
  · rw [hrun]
    exact save_config_read_dest _ fs

/-- The scrape target built for `svc-a`'s instance `10.0.0.5:8080` (witness
fixture). -/
def tgtW : Json := Json.obj
  [("targets", Json.arr [Json.str "10.0.0.5:8080"]),
   ("labels", Json.obj
     [("instance", Json.str "10.0.0.5:8080"),
      ("job", Json.str "nacos-discovery"),
      ("service", Json.str "svc-a")])]

/-- A registry with one service `svc-a` holding one healthy instance. -/
def regC1 : Registry :=
  ⟨HttpResult.resp false (Json.obj [("accessToken", Json.str "tok")]),
   HttpResult.resp false (Json.obj [("doms", Json.arr [Json.str "svc-a"])]),
   fun _ => HttpResult.resp false (Json.obj [("hosts", Json.arr [instW])])⟩

theorem c1_witness :
    (authenticate (NacosConfig.mkInit envW) regC1).2 = none ∧
    get_services regC1 = Except.ok (Json.arr [Json.str "svc-a"]) ∧
    (runMain envW regC1 fsW).1.read? workingPath = some (dumpsTargets [tgtW]) := by
  refine ⟨rfl, rfl, ?_⟩
  exact (c1_single_service_document envW regC1 fsW instW rfl rfl rfl rfl rfl).2.1

/-- Claim C3: when exactly one enumerated service's instance lookup fails
with a transport or HTTP error, that lookup returns the empty list instead of
raising, the cycle continues, and the published document consists of the
targets of the other services in service-listing order, with none for the
failing service. -/
theorem c3_one_failing_lookup_isolated (env : Env) (reg : Registry) (fs : Fs)
    (npre npost : List Json) (bad : Json) (tgt : Json → List Json)
    (hauth : (authenticate (NacosConfig.mkInit env) reg).2 = none)
    (hsvc : get_services reg = Except.ok (Json.arr (npre ++ bad :: npost)))
    (hfail : reg.instanceList (pyStr bad) = HttpResult.exn ∨
             ∃ b, reg.instanceList (pyStr bad) = HttpResult.resp true b)
    (hpre : ∀ n ∈ npre, perService reg n = Except.ok (tgt n))
    (hpost : ∀ n ∈ npost, perService reg n = Except.ok (tgt n)) :
    get_service_instances reg (pyStr bad) = Except.ok (Json.arr []) ∧
    runMain env reg fs =
      (save_config ((npre.map tgt).flatten ++ (npost.map tgt).flatten)
          workingPath configDir fs,
       Except.ok ()) := by
  have hempty := get_service_instances_of_fail reg (pyStr bad) hfail
  have hbadPS := perService_of_fail reg bad hfail
  have h1 := collectAll_ok_of_all reg npre tgt hpre
  have h2 := collectAll_ok_of_all reg npost tgt hpost
  have h3 := collectAll_cons_ok reg bad npost [] _ hbadPS h2
  have h3b : collectAll reg (bad :: npost) = Except.ok (npost.map tgt).flatten := by
    simpa using h3
  have h4 := collectAll_append_ok reg npre (bad :: npost) _ _ h1 h3b
  exact ⟨hempty, runMain_eq_of_ok env reg fs _ _ hauth hsvc h4⟩

/-- A registry with services `svc-a` (one instance) and `svc-b` (instance
lookup raises a transport error). -/
def regC3 : Registry :=
  ⟨HttpResult.resp false (Json.obj [("accessToken", Json.str "tok")]),
   HttpResult.resp false (Json.obj
     [("doms", Json.arr [Json.str "svc-a", Json.str "svc-b"])]),
   fun k => if k = "svc-b" then HttpResult.exn
            else HttpResult.resp false (Json.obj [("hosts", Json.arr [instW])])⟩

theorem c3_witness :
    get_service_instances regC3 "svc-b" = Except.ok (Json.arr []) ∧
    runMain envW regC3 fsW = (save_config [tgtW] workingPath configDir fsW, Except.ok ()) := by
  have h := c3_one_failing_lookup_isolated envW regC3 fsW [Json.str "svc-a"] []
      (Json.str "svc-b") (fun _ => [tgtW]) rfl rfl (Or.inl rfl)
      (by
        intro n hn
        have hn2 : n = Json.str "svc-a" := by simpa using hn
        subst hn2
        rfl)
      (by intro n hn; simp at hn)
  exact ⟨h.1, h.2⟩

/-- Claim C5: when every instance record carries both `ip` and `port`,
`generate_target_config` raises no field-access error; when a reached record
is a dict lacking one of these fields, target construction raises a
`KeyError` for that field, which nothing in the cycle catches — the cycle
aborts, with that error and no filesystem change. -/
theorem c5_missing_field_aborts :
    (∀ (service_name : Json) (l : List Json),
        (∀ i ∈ l, hasField i "ip" ∧ hasField i "port") →
        ∃ ts, generate_target_config (Json.arr l) service_name = Except.ok ts) ∧
    (∀ (env : Env) (reg : Registry) (fs : Fs) (npre npost ipre ipost : List Json)
        (s : Json) (fields : List (String × Json)),
        (authenticate (NacosConfig.mkInit env) reg).2 = none →
        get_services reg = Except.ok (Json.arr (npre ++ s :: npost)) →
        (∀ n ∈ npre, ∃ ts, perService reg n = Except.ok ts) →
        get_service_instances reg (pyStr s) =
          Except.ok (Json.arr (ipre ++ Json.obj fields :: ipost)) →
        (∀ i ∈ ipre, hasField i "ip" ∧ hasField i "port") →
        (lookupField fields "ip" = none ∨ lookupField fields "port" = none) →
        ∃ k, (k = "ip" ∨ k = "port") ∧
          runMain env reg fs = (fs, Except.error (PyError.keyError k))) := by
  constructor
  · intro s l h
    obtain ⟨ts, hts, _⟩ := buildTargets_ok_len s l h
    refine ⟨ts, ?_⟩
    simp only [generate_target_config, pyIterList]
    exact hts
  · intro env reg fs npre npost ipre ipost s fields hauth hsvc hnpre hinst hipre hmiss
    obtain ⟨k, hk, hmk⟩ := mkTarget_missing_field s fields hmiss
    have hbt := buildTargets_error_mid s (Json.obj fields) ipre ipost _ hipre hmk
    have hps : perService reg s = Except.error (PyError.keyError k) := by
      simp only [perService]
      rw [hinst]
      simp only [generate_target_config, pyIterList]
      exact hbt
    have hcoll := collectAll_error_mid reg npre npost s _ hnpre hps
    exact ⟨k, hk, runMain_eq_of_collect_error env reg fs _ _ hauth hsvc hcoll⟩

/-- A registry whose single service `svc-a` returns one malformed record
(no `port` field). -/
def regC5 : Registry :=
  ⟨HttpResult.resp false (Json.obj [("accessToken", Json.str "tok")]),
   HttpResult.resp false (Json.obj [("doms", Json.arr [Json.str "svc-a"])]),
   fun _ => HttpResult.resp false (Json.obj
     [("hosts", Json.arr [Json.obj [("ip", Json.str "10.0.0.5")]])])⟩

theorem c5_witness :
    (∃ ts, generate_target_config (Json.arr [instW]) (Json.str "svc-a") = Except.ok ts) ∧
    (∃ k, (k = "ip" ∨ k = "port") ∧
        runMain envW regC5 fsW = (fsW, Except.error (PyError.keyError k))) := by
  obtain ⟨hA, hB⟩ := c5_missing_field_aborts
  constructor
  · refine hA (Json.str "svc-a") [instW] ?_
    intro i hi
    have hii : i = instW := by simpa using hi
    subst hii
    exact ⟨⟨Json.str "10.0.0.5", rfl⟩, ⟨Json.num 8080, rfl⟩⟩
  · refine hB envW regC5 fsW [] [] [] [] (Json.str "svc-a")
      [("ip", Json.str "10.0.0.5")] rfl rfl ?_ rfl ?_ (Or.inr rfl)
    · intro n hn
      simp at hn
    · intro i hi
      simp at hi

/-- Claim C7: with authentication succeeding and service enumeration
succeeding with an empty sequence, the cycle does not abort: it publishes,
and the document written to the working file and to the watched-directory
copy is the empty JSON array `[]`. -/
theorem c7_empty_enumeration_publishes_empty (env : Env) (reg : Registry) (fs : Fs)
    (body : Json)
    (hauth : (authenticate (NacosConfig.mkInit env) reg).2 = none)
    (hresp : reg.serviceList = HttpResult.resp false body)
    (hsvc : get_services reg = Except.ok (Json.arr [])) :
    runMain env reg fs = (save_config [] workingPath configDir fs, Except.ok ()) ∧
    (runMain env reg fs).1.read? workingPath = some "[]" ∧
    (runMain env reg fs).1.read? destPath = some "[]" := by
  have hrun := runMain_eq_of_ok env reg fs [] [] hauth hsvc rfl
  refine ⟨hrun, ?_, ?_⟩
  · rw [hrun, save_config_read_working]
    rfl
  · rw [hrun, save_config_read_dest]
    rfl

/-- A registry that authenticates and reports an empty service list. -/
def regC7 : Registry :=
  ⟨HttpResult.resp false (Json.obj [("accessToken", Json.str "tok")]),
   HttpResult.resp false (Json.obj [("doms", Json.arr [])]),
   fun _ => HttpResult.exn⟩

theorem c7_witness :
    (authenticate (NacosConfig.mkInit envW) regC7).2 = none ∧
    regC7.serviceList = HttpResult.resp false (Json.obj [("doms", Json.arr [])]) ∧
    (runMain envW regC7 fsW).1.read? workingPath = some "[]" := by
  refine ⟨rfl, rfl, ?_⟩
  exact (c7_empty_enumeration_publishes_empty envW regC7 fsW
    (Json.obj [("doms", Json.arr [])]) rfl rfl rfl).2.1

/-- Claim C8: the cycle is deterministic in the registry responses — running
a second cycle against the same registry state (same authentication outcome,
same service list, same per-service instance lists) yields the same result
and leaves byte-identical serialized document content in the working file and
in the watched-directory copy. -/
theorem c8_consecutive_cycles_identical (env : Env) (reg : Registry) (fs : Fs) :
    (runMain env reg (runMain env reg fs).1).2 = (runMain env reg fs).2 ∧
    (runMain env reg (runMain env reg fs).1).1.read? workingPath =
      (runMain env reg fs).1.read? workingPath ∧
    (runMain env reg (runMain env reg fs).1).1.read? destPath =
      (runMain env reg fs).1.read? destPath := by
  cases h1 : (authenticate (NacosConfig.mkInit env) reg).2 with
  | some e => simp [runMain, h1]
  | none =>
      cases h2 : get_services reg with
      | error e => simp [runMain, h1, h2]
      | ok services =>
          cases h3 : pyIterList services with
          | none => simp [runMain, h1, h2, h3]
          | some names =>
              cases h4 : collectAll reg names with
              | error e => simp [runMain, h1, h2, h3, h4]
              | ok T =>
                  have hr : ∀ g : Fs, runMain env reg g =
                      (save_config T workingPath configDir g, Except.ok ()) := by
                    intro g
                    simp only [runMain, h1, h2, h3, h4]
                  rw [hr fs, hr (save_config T workingPath configDir fs)]
                  refine ⟨rfl, ?_, ?_⟩
                  · rw [save_config_read_working, save_config_read_working]
                  · rw [save_config_read_dest, save_config_read_dest]
